import Mathlib

/-
  Verification development for the SecureBank multi-service backend.

  This file shallowly embeds the parts of the Python sources that the
  verified properties are about:
    * src/transaction_service.py : account creation, account number
      generation, the core transfer logic (perform_transfer) and the
      endpoint-level transfer flow (amount validation, idempotency
      check, idempotency-cache store),
    * src/rbac_auth_service.py   : login rate limiting and the RBAC
      permission matrix / permission check,
    * src/web_app.py             : audit-log creation and hash
      verification.

  Machine reals (Python floats / SQLite numerics) are modelled as exact
  integers: the properties below are about comparisons, additions and
  subtractions of amounts, which the sources perform directly on the
  stored numeric values.  Randomness (account numbers, transaction ids)
  is passed in explicitly; the generated SHA-256 digest of the audit
  ledger is modelled as an explicit function parameter.
-/

namespace SecureBank

/-- An `accounts` table row (src/database/init_db.py, table `accounts`). -/
structure Account where
  id : Nat
  account_number : String
  user_id : Nat
  account_type : String
  balance : Int
  status : String
deriving DecidableEq

/-- A `transactions` table row (src/database/init_db.py, table `transactions`). -/
structure TransactionRec where
  transaction_id : String
  idempotency_key : Option String
  sender_account_id : Nat
  receiver_account_id : Nat
  amount : Int
  transaction_type : String
  description : String
  status : String
deriving DecidableEq

/-- The ledger store: the `accounts` and `transactions` tables. -/
structure Bank where
  accounts : List Account
  transactions : List TransactionRec
deriving DecidableEq

/-- The transfer-engine state: the ledger plus the Redis idempotency
cache (`idempotency:<key> -> transaction_id`, src/transaction_service.py,
`check_idempotency` / `store_idempotency`). -/
structure SysState where
  bank : Bank
  cache : List (String × String)
deriving DecidableEq

/-- Errors raised inside `perform_transfer`
(src/transaction_service.py lines 456-474 plus the table's UNIQUE
constraints on `transaction_id` / `idempotency_key`). -/
inductive TransferError where
  | accountNotFound
  | couldNotMap
  | accountNotActive
  | insufficientBalance
  | uniqueViolation
deriving DecidableEq

/-- Outcome of an endpoint-level transfer call. -/
inductive TransferOutcome where
  | completed (tid : String)
  | duplicate (tid : String)
  | invalidAmount
  | failed (e : TransferError)
deriving DecidableEq

/-- `SELECT ... FROM accounts WHERE id IN (?, ?)`
(src/transaction_service.py lines 446-455). -/
def matched_accounts (bank : Bank) (sender_id receiver_id : Nat) : List Account :=
  bank.accounts.filter (fun a => a.id == sender_id || a.id == receiver_id)

/-- The sender/receiver mapping loop of `perform_transfer`
(src/transaction_service.py lines 459-465): iterate over the fetched
rows, `if acc.id == sender_id` take it as sender, `elif acc.id ==
receiver_id` take it as receiver. -/
def map_sender_receiver (matched : List Account) (sender_id receiver_id : Nat) :
    Option Account × Option Account :=
  matched.foldl
    (fun p a =>
      if a.id == sender_id then (some a, p.2)
      else if a.id == receiver_id then (p.1, some a)
      else p)
    (none, none)

/-- Core transfer logic, `perform_transfer`
(src/transaction_service.py lines 438-541).  The SQL updates
`balance = balance - ?` / `balance = balance + ?` are applied to every
row matching the id, and the transaction row is appended; the whole
unit commits atomically (on any error the connection is rolled back, so
an error leaves the ledger untouched, which the `Except.error` result
models).  The UNIQUE constraints of the `transactions` table are
checked before the commit. -/
def perform_transfer (bank : Bank) (sender_id receiver_id : Nat) (amount : Int)
    (description transaction_type : String) (idempotency_key : Option String)
    (tid : String) : Except TransferError (Bank × TransactionRec) :=
  let matched := matched_accounts bank sender_id receiver_id
  if matched.length ≠ 2 then Except.error TransferError.accountNotFound
  else
    match map_sender_receiver matched sender_id receiver_id with
    | (some sender, some receiver) =>
      if !(sender.status == "active") || !(receiver.status == "active") then
        Except.error TransferError.accountNotActive
      else if sender.balance < amount then
        Except.error TransferError.insufficientBalance
      else if bank.transactions.any (fun t => t.transaction_id == tid) ||
              (match idempotency_key with
               | some k => bank.transactions.any (fun t => t.idempotency_key == some k)
               | none => false) then
        Except.error TransferError.uniqueViolation
      else
        let afterDebit := bank.accounts.map (fun a =>
          if a.id == sender_id then { a with balance := a.balance - amount } else a)
        let afterCredit := afterDebit.map (fun a =>
          if a.id == receiver_id then { a with balance := a.balance + amount } else a)
        let txn : TransactionRec :=
          { transaction_id := tid
            idempotency_key := idempotency_key
            sender_account_id := sender_id
            receiver_account_id := receiver_id
            amount := amount
            transaction_type := transaction_type
            description := description
            status := "completed" }
        Except.ok ({ accounts := afterCredit, transactions := bank.transactions ++ [txn] }, txn)
    | _ => Except.error TransferError.couldNotMap

/-- Endpoint-level transfer flow shared by `internal_transfer` and
`external_transfer` (src/transaction_service.py lines 554-627): reject
`amount <= 0`, then consult the idempotency cache (`check_idempotency`)
and return the cached transaction id on a hit, then run
`perform_transfer`, and only after it commits store the
`key -> transaction_id` mapping (`store_idempotency`).  The caller
authentication / account-ownership checks that precede this flow are
authorization concerns outside the spec's `ExecuteTransfer` interface
and abort with zero mutation. -/
def execute_transfer (st : SysState) (sender_id receiver_id : Nat) (amount : Int)
    (description transaction_type : String) (idempotency_key : Option String)
    (tid : String) : SysState × TransferOutcome :=
  if amount ≤ 0 then (st, TransferOutcome.invalidAmount)
  else
    let cached : Option String :=
      match idempotency_key with
      | some k => st.cache.lookup k
      | none => none
    match cached with
    | some prev => (st, TransferOutcome.duplicate prev)
    | none =>
      match perform_transfer st.bank sender_id receiver_id amount description
          transaction_type idempotency_key tid with
      | Except.error e => (st, TransferOutcome.failed e)
      | Except.ok (bank', _) =>
        let cache' :=
          match idempotency_key with
          | some k => (k, tid) :: st.cache
          | none => st.cache
        ({ bank := bank', cache := cache' }, TransferOutcome.completed tid)

/-- `SELECT ... FROM accounts WHERE id = ?` returning the first (unique) row. -/
def findAccount (bank : Bank) (x : Nat) : Option Account :=
  bank.accounts.find? (fun a => a.id == x)

/-- `generate_account_number` (src/transaction_service.py lines 53-55):
twelve uniformly chosen decimal digits.  The random source is passed in
as `rng`; position `i` uses digit `rng i % 10`. -/
def generate_account_number (rng : Nat → Nat) : String :=
  String.mk ((List.range 12).map (fun i => Nat.digitChar (rng i % 10)))

/-- Errors of `create_account_core` (src/transaction_service.py lines
254-301): invalid account type, missing target user, and the UNIQUE
constraint on `accounts.account_number` firing at the INSERT. -/
inductive CreateError where
  | invalidAccountType
  | targetUserMissing
  | uniqueViolation
deriving DecidableEq

/-- `data.get("user_id") or current_user["user_id"]`
(src/transaction_service.py line 258): a missing or falsy (zero)
requested user id falls back to the caller. -/
def resolve_target_user (current_user_id : Nat) : Option Nat → Nat
  | some u => if u == 0 then current_user_id else u
  | none => current_user_id

/-- `create_account_core` (src/transaction_service.py lines 254-301).
Mirrors the source order: read `account_type` / `opening_balance` /
`user_id`, validate the account type, generate the account number,
check the target user exists, then INSERT the row with status
`active`.  The opening balance is stored as given — the source performs
no validation on it.  The new row id is `cursor.lastrowid`, modelled as
one past the current row count. -/
def create_account_core (bank : Bank) (users : List Nat) (current_user_id : Nat)
    (account_type : String) (opening_balance : Int) (target_user? : Option Nat)
    (rng : Nat → Nat) : Except CreateError (Bank × Account) :=
  let target_user_id := resolve_target_user current_user_id target_user?
  if !(account_type == "checking" || account_type == "savings") then
    Except.error CreateError.invalidAccountType
  else
    let number := generate_account_number rng
    if !(users.contains target_user_id) then
      Except.error CreateError.targetUserMissing
    else if bank.accounts.any (fun a => a.account_number == number) then
      Except.error CreateError.uniqueViolation
    else
      let acc : Account :=
        { id := bank.accounts.length + 1
          account_number := number
          user_id := target_user_id
          account_type := account_type
          balance := opening_balance
          status := "active" }
      Except.ok ({ bank with accounts := bank.accounts ++ [acc] }, acc)

/-- Outcome of a `login` call (src/rbac_auth_service.py lines 297-390),
restricted to the rate-limiting-relevant classification. -/
inductive LoginOutcome where
  | success
  | invalidCredentials
  | rateLimited (ttlSeconds : Nat)
deriving DecidableEq

/-- `MAX_LOGIN_ATTEMPTS` (src/rbac_auth_service.py line 46). -/
def MAX_LOGIN_ATTEMPTS : Nat := 5

/-- `LOGIN_LOCKOUT_MINUTES` (src/rbac_auth_service.py line 47). -/
def LOGIN_LOCKOUT_MINUTES : Nat := 15

/-- `check_rate_limit` (src/rbac_auth_service.py lines 179-200) for one
`(ip, email)` key.  The Redis entry for the key is `some (count, expiry)`
or `none`; a stored entry is visible only while the current time `t` is
before its expiry (`SETEX` TTL semantics; `INCR` preserves the TTL,
`TTL` returns the remaining seconds).  Returns the new entry and the
pair `(allowed, attempts_or_ttl)` that the source returns. -/
def check_rate_limit (entry : Option (Nat × Nat)) (t : Nat) :
    Option (Nat × Nat) × (Bool × Nat) :=
  let current : Option (Nat × Nat) :=
    match entry with
    | some (c, e) => if t < e then some (c, e) else none
    | none => none
  match current with
  | none => (some (1, t + LOGIN_LOCKOUT_MINUTES * 60), (true, 1))
  | some (c, e) =>
    if MAX_LOGIN_ATTEMPTS ≤ c then (some (c, e), (false, e - t))
    else (some (c + 1, e), (true, c + 1))

/-- One `login` call for a fixed `(ip, email)` key
(src/rbac_auth_service.py lines 297-390): rate limit first (rejecting
with the remaining lockout seconds when locked), then verify the
credentials (`passwordCorrect` abstracts "the user exists and bcrypt
accepts the password"); a successful authentication deletes the counter
(`reset_rate_limit`, lines 203-210). -/
def login (entry : Option (Nat × Nat)) (t : Nat) (passwordCorrect : Bool) :
    Option (Nat × Nat) × LoginOutcome :=
  let r := check_rate_limit entry t
  if r.2.1 then
    if passwordCorrect then (none, LoginOutcome.success)
    else (r.1, LoginOutcome.invalidCredentials)
  else (r.1, LoginOutcome.rateLimited r.2.2)

/-- `PERMISSION_MATRIX` (src/rbac_auth_service.py lines 55-116),
verbatim: four roles, thirteen actions each. -/
def PERMISSION_MATRIX : List (String × List (String × Bool)) :=
  [ ("customer",
      [ ("register_login", true), ("manage_own_profile", true),
        ("view_own_accounts", true), ("view_all_accounts", false),
        ("create_accounts", true), ("internal_transfers", true),
        ("external_transfers", true), ("view_own_transactions", true),
        ("view_all_transactions", false), ("freeze_unfreeze_accounts", false),
        ("manage_users_roles", false), ("manage_tickets", false),
        ("view_audit_logs", false) ]),
    ("support_agent",
      [ ("register_login", true), ("manage_own_profile", true),
        ("view_own_accounts", true), ("view_all_accounts", true),
        ("create_accounts", false), ("internal_transfers", false),
        ("external_transfers", false), ("view_own_transactions", true),
        ("view_all_transactions", true), ("freeze_unfreeze_accounts", false),
        ("manage_users_roles", false), ("manage_tickets", true),
        ("view_audit_logs", false) ]),
    ("auditor",
      [ ("register_login", true), ("manage_own_profile", false),
        ("view_own_accounts", true), ("view_all_accounts", true),
        ("create_accounts", false), ("internal_transfers", false),
        ("external_transfers", false), ("view_own_transactions", true),
        ("view_all_transactions", true), ("freeze_unfreeze_accounts", false),
        ("manage_users_roles", false), ("manage_tickets", false),
        ("view_audit_logs", true) ]),
    ("admin",
      [ ("register_login", true), ("manage_own_profile", true),
        ("view_own_accounts", true), ("view_all_accounts", true),
        ("create_accounts", true), ("internal_transfers", true),
        ("external_transfers", true), ("view_own_transactions", true),
        ("view_all_transactions", true), ("freeze_unfreeze_accounts", true),
        ("manage_users_roles", true), ("manage_tickets", true),
        ("view_audit_logs", true) ]) ]

/-- The secondary reason code of `check_permission`
(src/rbac_auth_service.py lines 517-539): `ok` for a table hit,
`invalidRole` / `invalidAction` for the two fail-closed branches. -/
inductive PermReason where
  | ok
  | invalidRole
  | invalidAction
deriving DecidableEq

/-- `check_permission` (src/rbac_auth_service.py lines 517-539): an
unknown role answers `(false, invalidRole)`, a known role with an
unknown action answers `(false, invalidAction)`, otherwise the matrix
entry decides. -/
def check_permission (role action : String) : Bool × PermReason :=
  match PERMISSION_MATRIX.lookup role with
  | none => (false, PermReason.invalidRole)
  | some perms =>
    match perms.lookup action with
    | none => (false, PermReason.invalidAction)
    | some allowed => (allowed, PermReason.ok)

/-- An `audit_logs` table row (src/database/init_db.py, table
`audit_logs`). -/
structure AuditEntry where
  log_id : Nat
  user_id : Option Nat
  action : String
  resource_type : Option String
  resource_id : Option Nat
  ip_address : String
  user_agent : String
  details : Option String
  severity : String
  log_hash : String
deriving DecidableEq

/-- Python `str(...)` on a nullable string column: `None` renders as
the literal string `"None"`. -/
def opt_str : Option String → String
  | none => "None"
  | some s => s

/-- Python `str(...)` on a nullable integer column. -/
def opt_nat_str : Option Nat → String
  | none => "None"
  | some n => toString n

/-- Join a list of strings with `":"` separators, as the f-string
`f"{a}:{b}:...:{i}"` does. -/
def colon_join : List String → String
  | [] => ""
  | [x] => x
  | x :: y :: t => x ++ ":" ++ colon_join (y :: t)

/-- The canonical `entry_string` of `create_audit_log`
(src/web_app.py line 148):
`f"{log_id}:{user_id}:{action}:{resource_type}:{resource_id}:{ip_address}:{user_agent}:{details}:{severity}"`.
The stored hash itself is not part of the string. -/
def entry_string (e : AuditEntry) : String :=
  colon_join
    [ toString e.log_id, opt_nat_str e.user_id, e.action,
      opt_str e.resource_type, opt_nat_str e.resource_id,
      e.ip_address, e.user_agent, opt_str e.details, e.severity ]

/-- The audit row finalized by the two-phase write of
`create_audit_log` (src/web_app.py lines 119-160): the row is inserted
with a placeholder hash, then `hash_log_entry` (line 105-107, SHA-256,
abstracted here as `h`) of the canonical string is patched back onto
the same row. -/
def mk_audit_entry (h : String → String) (log_id : Nat) (user_id : Option Nat)
    (action : String) (resource_type : Option String) (resource_id : Option Nat)
    (ip_address user_agent : String) (details : Option String)
    (severity : String) : AuditEntry :=
  let e0 : AuditEntry :=
    { log_id := log_id, user_id := user_id, action := action,
      resource_type := resource_type, resource_id := resource_id,
      ip_address := ip_address, user_agent := user_agent,
      details := details, severity := severity, log_hash := "" }
  { e0 with log_hash := h (entry_string e0) }

/-- `create_audit_log` (src/web_app.py lines 119-160): append the
finalized row; `cursor.lastrowid` is one past the current row count.
Returns the new table and the new `log_id`. -/
def create_audit_log (h : String → String) (logs : List AuditEntry)
    (user_id : Option Nat) (action : String) (resource_type : Option String)
    (resource_id : Option Nat) (ip_address user_agent : String)
    (details : Option String) (severity : String) : List AuditEntry × Nat :=
  let log_id := logs.length + 1
  (logs ++ [mk_audit_entry h log_id user_id action resource_type resource_id
      ip_address user_agent details severity], log_id)

/-- Audit verification: recompute the digest over the stored fields and
compare with the stored hash (spec section 4.4). -/
def verify_audit_entry (h : String → String) (e : AuditEntry) : Bool :=
  h (entry_string e) == e.log_hash

/-! ### Helper lemmas -/

lemma map_sender_receiver_self_aux (l : List Account) (x : Nat)
    (acc : Option Account × Option Account) :
    (l.foldl
      (fun p a =>
        if a.id == x then (some a, p.2)
        else if a.id == x then (p.1, some a)
        else p) acc).2 = acc.2 := by
  induction l generalizing acc with
  | nil => rfl
  | cons a t ih =>
    rw [List.foldl_cons, ih]
    by_cases h : (a.id == x) = true <;> simp [h]

/-- The `elif` in the mapping loop means a self-transfer never fills
the receiver slot. -/
lemma map_sender_receiver_self (l : List Account) (x : Nat) :
    (map_sender_receiver l x x).2 = none :=
  map_sender_receiver_self_aux l x (none, none)

lemma find?_map_id_preserving (f : Account → Account)
    (hf : ∀ a, (f a).id = a.id) (l : List Account) (x : Nat) :
    (l.map f).find? (fun a => a.id == x) = (l.find? (fun a => a.id == x)).map f := by
  induction l with
  | nil => rfl
  | cons a t ih =>
    by_cases h : (a.id == x) = true
    · simp [h, hf]
    · simp [h, hf, ih]

lemma string_append_cancel_left (a b c : String) (hh : a ++ b = a ++ c) : b = c := by
  have h2 : a.data ++ b.data = a.data ++ c.data := by
    have h3 := congrArg String.data hh
    simpa using h3
  exact String.ext (List.append_cancel_left h2)

lemma string_append_cancel_right (a b c : String) (hh : a ++ c = b ++ c) : a = b := by
  have h2 : a.data ++ c.data = b.data ++ c.data := by
    have h3 := congrArg String.data hh
    simpa using h3
  exact String.ext (List.append_cancel_right h2)

lemma colon_join_cons (a : String) (l : List String) (hl : l ≠ []) :
    colon_join (a :: l) = a ++ ":" ++ colon_join l := by
  cases l with
  | nil => exact absurd rfl hl
  | cons b t => rfl

/-- Two colon-joined lists of the same shape that differ in exactly one
component produce different strings. -/
lemma colon_join_ne (pre : List String) (x y : String) (suf : List String)
    (hxy : x ≠ y) :
    colon_join (pre ++ x :: suf) ≠ colon_join (pre ++ y :: suf) := by
  induction pre with
  | nil =>
    cases suf with
    | nil => simpa [colon_join] using hxy
    | cons b t =>
      intro hh
      rw [List.nil_append, List.nil_append,
        colon_join_cons x (b :: t) (by simp),
        colon_join_cons y (b :: t) (by simp)] at hh
      exact hxy (string_append_cancel_right _ _ _ (by simpa [String.append_assoc] using hh))
  | cons a t ih =>
    intro hh
    rw [List.cons_append, List.cons_append,
      colon_join_cons a (t ++ x :: suf) (by simp),
      colon_join_cons a (t ++ y :: suf) (by simp)] at hh
    have h2 := string_append_cancel_left _ _ _ (by simpa [String.append_assoc] using hh)
    exact ih (string_append_cancel_left _ _ _ h2)

lemma beq_hash_false_of_ne (h : String → String)
    (hinj : ∀ s t, h s = h t → s = t) (s1 s2 : String) (hne : s1 ≠ s2) :
    (h s1 == h s2) = false := by
  rw [beq_eq_false_iff_ne]
  exact fun hh => hne (hinj _ _ hh)

/-- With distinct row ids, at most one account matches a given id. -/
lemma length_filter_id_le_one (l : List Account) (x : Nat)
    (hnd : (l.map (fun a => a.id)).Nodup) :
    (l.filter (fun a => a.id == x)).length ≤ 1 := by
  induction l with
  | nil => simp
  | cons a t ih =>
    simp only [List.map_cons, List.nodup_cons] at hnd
    by_cases h : (a.id == x) = true
    · have hx : a.id = x := by simpa using h
      have hnil : t.filter (fun b => b.id == x) = [] := by
        rw [List.filter_eq_nil_iff]
        intro b hb hbx
        exact hnd.1 (by
          rw [hx, ((by simpa using hbx : b.id = x)).symm]
          exact List.mem_map_of_mem _ hb)
      simp [List.filter_cons, h, hnil]
    · simp only [List.filter_cons, h, Bool.false_eq_true, if_false]
      exact ih hnd.2

lemma one_le_length_filter_of_find? (l : List Account) (x : Nat) (a : Account)
    (hf : l.find? (fun b => b.id == x) = some a) :
    1 ≤ (l.filter (fun b => b.id == x)).length := by
  have hm : a ∈ l := List.mem_of_find?_eq_some hf
  have hp0 := List.find?_some hf
  have hmem : a ∈ l.filter (fun b => b.id == x) :=
    List.mem_filter.mpr ⟨hm, by simpa using hp0⟩
  cases hfl : l.filter (fun b => b.id == x) with
  | nil => rw [hfl] at hmem; simp at hmem
  | cons c cs => simp

/-- What a successful `perform_transfer` did: the sender and receiver
ids are distinct, every sender row was debited and every receiver row
credited by exactly the amount, the completed transaction row was
appended, and no prior row used the same idempotency key. -/
lemma perform_transfer_ok_spec (bank bank' : Bank) (sid rid : Nat) (amt : Int)
    (d ty : String) (k : Option String) (tid : String) (txn : TransactionRec)
    (hok : perform_transfer bank sid rid amt d ty k tid = Except.ok (bank', txn)) :
    sid ≠ rid ∧
    bank'.accounts =
      (bank.accounts.map (fun a =>
        if a.id == sid then { a with balance := a.balance - amt } else a)).map
        (fun a => if a.id == rid then { a with balance := a.balance + amt } else a) ∧
    bank'.transactions = bank.transactions ++ [txn] ∧
    txn = { transaction_id := tid, idempotency_key := k, sender_account_id := sid,
            receiver_account_id := rid, amount := amt, transaction_type := ty,
            description := d, status := "completed" } ∧
    (∀ kk, k = some kk →
      bank.transactions.any (fun t => t.idempotency_key == some kk) = false) := by
  have hne : sid ≠ rid := by
    intro heq0
    subst heq0
    simp only [perform_transfer] at hok
    split at hok
    · exact Except.noConfusion hok
    · split at hok
      · rename_i x sender receiver heq
        have hsnd := map_sender_receiver_self (matched_accounts bank sid sid) sid
        rw [heq] at hsnd
        exact Option.noConfusion hsnd
      · exact Except.noConfusion hok
  refine ⟨hne, ?_⟩
  simp only [perform_transfer] at hok
  split at hok
  · exact Except.noConfusion hok
  · split at hok
    · rename_i x sender receiver heq
      split at hok
      · exact Except.noConfusion hok
      · split at hok
        · exact Except.noConfusion hok
        · split at hok
          · exact Except.noConfusion hok
          · rename_i h4
            injection hok with hok1
            injection hok1 with hb ht
            subst hb
            subst ht
            refine ⟨rfl, rfl, rfl, ?_⟩
            intro kk hkk
            subst hkk
            have h4' : (bank.transactions.any (fun t => t.transaction_id == tid) ||
                bank.transactions.any (fun t => t.idempotency_key == some kk)) = false := by
              simpa using h4
            simpa using (Bool.or_eq_false_iff.mp h4').2
    · exact Except.noConfusion hok

/-- What a `completed` endpoint transfer did: the amount was positive,
the idempotency cache had no entry for the key, `perform_transfer`
committed, and the key→transaction-id mapping was stored afterwards. -/
lemma execute_transfer_completed_spec (st st1 : SysState) (sid rid : Nat)
    (amt : Int) (d ty : String) (k : Option String) (tid tid1 : String)
    (h : execute_transfer st sid rid amt d ty k tid = (st1, TransferOutcome.completed tid1)) :
    tid1 = tid ∧ 0 < amt ∧
    (∀ kk, k = some kk → st.cache.lookup kk = none) ∧
    (∃ txn, perform_transfer st.bank sid rid amt d ty k tid = Except.ok (st1.bank, txn)) ∧
    (∀ kk, k = some kk → st1.cache = (kk, tid) :: st.cache) ∧
    (k = none → st1.cache = st.cache) := by
  simp only [execute_transfer] at h
  split at h
  · simp at h
  · rename_i hamt
    split at h
    · simp at h
    · rename_i cached hcache
      split at h
      · simp at h
      · rename_i res bank' txn hperf
        injection h with h1 h2
        injection h2 with h3
        constructor
        · exact h3.symm
        constructor
        · omega
        constructor
        · intro kk hkk
          subst hkk
          simpa using hcache
        · refine ⟨⟨txn, ?_⟩, ?_, ?_⟩
          · rw [hperf, ← h1]
          · intro kk hkk
            subst hkk
            rw [← h1]
          · intro hkn
            subst hkn
            rw [← h1]

/-- Any endpoint transfer outcome other than `completed` leaves the
whole state (balances, transaction rows, idempotency cache) unchanged. -/
lemma execute_transfer_no_mutation (st st1 : SysState) (sid rid : Nat)
    (amt : Int) (d ty : String) (k : Option String) (tid : String)
    (o : TransferOutcome)
    (h : execute_transfer st sid rid amt d ty k tid = (st1, o))
    (ho : ∀ t, o ≠ TransferOutcome.completed t) : st1 = st := by
  simp only [execute_transfer] at h
  split at h
  · injection h with h1 h2; exact h1.symm
  · split at h
    · injection h with h1 h2; exact h1.symm
    · split at h
      · injection h with h1 h2; exact h1.symm
      · rename_i res bank' txn hperf
        injection h with h1 h2
        exact absurd h2.symm (ho _)

lemma login_first_attempt (t : Nat) :
    login none t false = (some (1, t + 900), LoginOutcome.invalidCredentials) := rfl

lemma login_increments (c e t : Nat) (h1 : t < e) (h2 : c < 5) :
    login (some (c, e)) t false = (some (c + 1, e), LoginOutcome.invalidCredentials) := by
  have h3 : ¬(5 ≤ c) := by omega
  simp [login, check_rate_limit, MAX_LOGIN_ATTEMPTS, h1, h3]

lemma login_locked_out (c e t : Nat) (b : Bool) (h1 : t < e) (h2 : 5 ≤ c) :
    login (some (c, e)) t b = (some (c, e), LoginOutcome.rateLimited (e - t)) := by
  simp [login, check_rate_limit, MAX_LOGIN_ATTEMPTS, h1, h2]

lemma login_success_resets (c e t : Nat) (h1 : t < e) (h2 : c < 5) :
    login (some (c, e)) t true = (none, LoginOutcome.success) := by
  have h3 : ¬(5 ≤ c) := by omega
  simp [login, check_rate_limit, MAX_LOGIN_ATTEMPTS, h1, h3]

/-! ### Claim theorems -/

/-- Claim C6: login rate limiting per `(ip, email)` key: the first
attempt sets the counter to 1 with a 15-minute (900-second) TTL, each
further attempt below the threshold increments it, once the counter has
reached 5 any further attempt inside the window is rejected as
rate-limited with the remaining lockout seconds (in particular the 6th
attempt after 5 failed logins within the window), and one successful
authentication deletes the counter immediately. -/
theorem login_rate_limiting :
    (∀ t, login none t false =
      (some (1, t + LOGIN_LOCKOUT_MINUTES * 60), LoginOutcome.invalidCredentials)) ∧
    (∀ c e t, t < e → c < MAX_LOGIN_ATTEMPTS →
      login (some (c, e)) t false = (some (c + 1, e), LoginOutcome.invalidCredentials)) ∧
    (∀ c e t b, t < e → MAX_LOGIN_ATTEMPTS ≤ c →
      login (some (c, e)) t b = (some (c, e), LoginOutcome.rateLimited (e - t))) ∧
    (∀ c e t, t < e → c < MAX_LOGIN_ATTEMPTS →
      login (some (c, e)) t true = (none, LoginOutcome.success)) ∧
    (∀ t0 t1 t2 t3 t4 t5, t1 < t0 + 900 → t2 < t0 + 900 → t3 < t0 + 900 →
      t4 < t0 + 900 → t5 < t0 + 900 →
      (login ((login ((login ((login ((login ((login none t0 false).1)
        t1 false).1) t2 false).1) t3 false).1) t4 false).1) t5 false).2
        = LoginOutcome.rateLimited (t0 + 900 - t5)) := by
  refine ⟨?_, ?_, ?_, ?_, ?_⟩
  · intro t
    exact login_first_attempt t
  · intro c e t h1 h2
    exact login_increments c e t h1 h2
  · intro c e t b h1 h2
    exact login_locked_out c e t b h1 h2
  · intro c e t h1 h2
    exact login_success_resets c e t h1 h2
  · intro t0 t1 t2 t3 t4 t5 h1 h2 h3 h4 h5
    rw [login_first_attempt t0]
    simp only []
    rw [login_increments 1 (t0 + 900) t1 h1 (by omega)]
    simp only []
    rw [login_increments 2 (t0 + 900) t2 h2 (by omega)]
    simp only []
    rw [login_increments 3 (t0 + 900) t3 h3 (by omega)]
    simp only []
    rw [login_increments 4 (t0 + 900) t4 h4 (by omega)]
    simp only []
    rw [login_locked_out 5 (t0 + 900) t5 false h5 (by omega)]

/-- Witness for C6 at concrete times: first attempt at second 0, five
further failed attempts at seconds 1..5, lockout reply with 895 seconds
remaining; plus concrete increment, lockout and reset calls. -/
theorem login_rate_limiting_witness :
    login none 0 false = (some (1, 900), LoginOutcome.invalidCredentials) ∧
    login (some (3, 900)) 10 false = (some (4, 900), LoginOutcome.invalidCredentials) ∧
    login (some (5, 900)) 20 false = (some (5, 900), LoginOutcome.rateLimited 880) ∧
    login (some (2, 900)) 30 true = (none, LoginOutcome.success) ∧
    (login ((login ((login ((login ((login ((login none 0 false).1)
      1 false).1) 2 false).1) 3 false).1) 4 false).1) 5 false).2
      = LoginOutcome.rateLimited 895 :=
  ⟨login_rate_limiting.1 0,
   login_rate_limiting.2.1 3 900 10 (by decide) (by decide),
   login_rate_limiting.2.2.1 5 900 20 false (by decide) (by decide),
   login_rate_limiting.2.2.2.1 2 900 30 (by decide) (by decide),
   login_rate_limiting.2.2.2.2 0 1 2 3 4 5 (by decide) (by decide) (by decide)
     (by decide) (by decide)⟩

/-- Claim C7: permission checking is fail-closed: `check_permission`
answers `false` for every role outside the four-role table (for any
action) and `false` for every action outside the table (for every
defined role); the secondary reason code never grants access — whenever
it is not `ok`, the answer is `false`. -/
theorem check_permission_fail_closed :
    (∀ role action, PERMISSION_MATRIX.lookup role = none →
      (check_permission role action).1 = false) ∧
    (∀ role action perms, PERMISSION_MATRIX.lookup role = some perms →
      perms.lookup action = none → (check_permission role action).1 = false) ∧
    (∀ role action, (check_permission role action).2 ≠ PermReason.ok →
      (check_permission role action).1 = false) := by
  refine ⟨?_, ?_, ?_⟩
  · intro role action hr
    simp [check_permission, hr]
  · intro role action perms hr ha
    simp [check_permission, hr, ha]
  · intro role action hne
    cases hr : PERMISSION_MATRIX.lookup role with
    | none => simp [check_permission, hr]
    | some perms =>
      cases ha : perms.lookup action with
      | none => simp [check_permission, hr, ha]
      | some b =>
        exact absurd (by simp [check_permission, hr, ha]) hne

/-- Witness for C7: the undefined role `teller` is denied a defined
action, and the defined roles `customer` and `admin` are denied the
undefined action `drop_tables`. -/
theorem check_permission_fail_closed_witness :
    (check_permission "teller" "view_audit_logs").1 = false ∧
    (check_permission "customer" "drop_tables").1 = false ∧
    (check_permission "admin" "drop_tables").1 = false :=
  ⟨check_permission_fail_closed.1 "teller" "view_audit_logs" (by decide),
   check_permission_fail_closed.2.1 "customer" "drop_tables" _ rfl (by decide),
   check_permission_fail_closed.2.1 "admin" "drop_tables" _ rfl (by decide)⟩

/-- Claim C1: evaluation at the failing input.  `create_account_core`
performs no validation of the opening balance, so creating an account
with `opening_balance = -100` succeeds and the stored (and returned)
balance is negative — contradicting the never-negative-balance
invariant (which the repository's own dead validation schema,
`AccountCreationSchema` in src/utils/validators.py, states as
`opening_balance ... ge=0`). -/
theorem create_account_negative_opening_balance :
    create_account_core { accounts := [], transactions := [] } [1] 1 "checking"
        (-100) none (fun _ => 0)
      = Except.ok
          ({ accounts :=
              [ { id := 1, account_number := "000000000000", user_id := 1,
                  account_type := "checking", balance := -100, status := "active" } ],
             transactions := [] },
           { id := 1, account_number := "000000000000", user_id := 1,
             account_type := "checking", balance := -100, status := "active" }) ∧
    (-100 : Int) < 0 :=
  ⟨rfl, by decide⟩

/-- Claim C9: counterexample.  When the generated account number
collides with an existing account's number, `create_account_core` does
not regenerate: the INSERT violates the UNIQUE constraint and account
creation fails instead of succeeding with a fresh number. -/
theorem account_number_collision_fails :
    generate_account_number (fun _ => 0) = "000000000000" ∧
    create_account_core
        { accounts :=
            [ { id := 1, account_number := "000000000000", user_id := 1,
                account_type := "checking", balance := 0, status := "active" } ],
          transactions := [] }
        [1] 1 "checking" 0 none (fun _ => 0)
      = Except.error CreateError.uniqueViolation :=
  ⟨rfl, rfl⟩

/-- Claim C9 (amended): account number generation produces a random
fixed-length (12-digit) numeric string; the number is generated once
per creation, and when it collides with an existing account's number
the creation fails with a uniqueness violation (there is no
regeneration). -/
theorem generate_account_number_spec (rng : Nat → Nat) (bank : Bank)
    (users : List Nat) (cu : Nat) (ty : String) (ob : Int) (tu : Option Nat) :
    (generate_account_number rng).length = 12 ∧
    (∀ c, c ∈ (generate_account_number rng).data → c.isDigit = true) ∧
    ((ty == "checking" || ty == "savings") = true →
      users.contains (resolve_target_user cu tu) = true →
      bank.accounts.any (fun a => a.account_number == generate_account_number rng) = true →
      create_account_core bank users cu ty ob tu rng
        = Except.error CreateError.uniqueViolation) := by
  refine ⟨?_, ?_, ?_⟩
  · simp [generate_account_number, String.length]
  · intro c hc
    simp only [generate_account_number, String.mk, List.mem_map, List.mem_range] at hc
    obtain ⟨i, -, hi⟩ := hc
    have hd : ∀ m, m < 10 → (Nat.digitChar m).isDigit = true := by decide
    rw [← hi]
    exact hd _ (Nat.mod_lt _ (by omega))
  · intro hty hu hcol
    have hu2 : resolve_target_user cu tu ∈ users := by
      simpa using hu
    simp [create_account_core, hty, hu2, hcol]

/-- Witness for C9: a concrete digit source, a bank already holding the
colliding number, a valid account type and an existing target user. -/
theorem generate_account_number_spec_witness :
    (generate_account_number (fun i => i)).length = 12 ∧
    create_account_core
        { accounts :=
            [ { id := 1, account_number := "012345678901", user_id := 1,
                account_type := "savings", balance := 7, status := "active" } ],
          transactions := [] }
        [1] 1 "savings" 5 none (fun i => i)
      = Except.error CreateError.uniqueViolation :=
  ⟨(generate_account_number_spec (fun i => i)
      { accounts :=
          [ { id := 1, account_number := "012345678901", user_id := 1,
              account_type := "savings", balance := 7, status := "active" } ],
        transactions := [] } [1] 1 "savings" 5 none).1,
   (generate_account_number_spec (fun i => i)
      { accounts :=
          [ { id := 1, account_number := "012345678901", user_id := 1,
              account_type := "savings", balance := 7, status := "active" } ],
        transactions := [] } [1] 1 "savings" 5 none).2.2
     (by decide) (by decide) (by decide)⟩

lemma execute_transfer_failed_of_perform (st : SysState) (sid rid : Nat)
    (amt : Int) (d ty : String) (k : Option String) (tid : String)
    (e : TransferError) (hamt : 0 < amt)
    (hmiss : ∀ kk, k = some kk → st.cache.lookup kk = none)
    (hp : perform_transfer st.bank sid rid amt d ty k tid = Except.error e) :
    execute_transfer st sid rid amt d ty k tid = (st, TransferOutcome.failed e) := by
  simp only [execute_transfer]
  rw [if_neg (by omega)]
  cases k with
  | none => simp [hp]
  | some kk => simp [hmiss kk rfl, hp]

lemma perform_transfer_notFound (bank : Bank) (sid rid : Nat) (amt : Int)
    (d ty : String) (k : Option String) (tid : String)
    (hlen : (matched_accounts bank sid rid).length ≠ 2) :
    perform_transfer bank sid rid amt d ty k tid
      = Except.error TransferError.accountNotFound := by
  simp only [perform_transfer]
  rw [if_pos hlen]

lemma perform_transfer_notActive (bank : Bank) (sid rid : Nat) (amt : Int)
    (d ty : String) (k : Option String) (tid : String) (s r : Account)
    (hlen : (matched_accounts bank sid rid).length = 2)
    (hmap : map_sender_receiver (matched_accounts bank sid rid) sid rid
      = (some s, some r))
    (hstat : (!(s.status == "active") || !(r.status == "active")) = true) :
    perform_transfer bank sid rid amt d ty k tid
      = Except.error TransferError.accountNotActive := by
  simp only [perform_transfer]
  rw [if_neg (by simp [hlen]), hmap]
  simp [hstat]

lemma perform_transfer_insufficient (bank : Bank) (sid rid : Nat) (amt : Int)
    (d ty : String) (k : Option String) (tid : String) (s r : Account)
    (hlen : (matched_accounts bank sid rid).length = 2)
    (hmap : map_sender_receiver (matched_accounts bank sid rid) sid rid
      = (some s, some r))
    (hs : s.status = "active") (hr : r.status = "active")
    (hbal : s.balance < amt) :
    perform_transfer bank sid rid amt d ty k tid
      = Except.error TransferError.insufficientBalance := by
  simp only [perform_transfer]
  rw [if_neg (by simp [hlen]), hmap]
  simp [hs, hr, hbal]

/-- Claim C4: counterexample.  With both accounts missing and a
non-positive amount, the claimed check order (account existence first)
would answer AccountNotFound, but the code validates the amount first
and answers InvalidAmount. -/
theorem precondition_order_counterexample :
    execute_transfer { bank := { accounts := [], transactions := [] }, cache := [] }
        1 2 0 "d" "internal_transfer" none "TID"
      = ({ bank := { accounts := [], transactions := [] }, cache := [] },
         TransferOutcome.invalidAmount) ∧
    TransferOutcome.invalidAmount
      ≠ TransferOutcome.failed TransferError.accountNotFound ∧
    findAccount { accounts := [], transactions := [] } 1 = none :=
  ⟨rfl, by decide, rfl⟩

/-- Claim C4 (amended): the transfer preconditions are checked in this
order, each aborting with zero mutation on failure: amount > 0 (else
InvalidAmount), both accounts exist (else AccountNotFound), both
accounts active (else AccountNotActive), sender.balance ≥ amount (else
InsufficientBalance).  The amount check fires regardless of the later
conditions; each later check fires only when all earlier ones pass. -/
theorem execute_transfer_check_order (st : SysState) (sid rid : Nat)
    (amt : Int) (d ty : String) (k : Option String) (tid : String)
    (hmiss : ∀ kk, k = some kk → st.cache.lookup kk = none) :
    (amt ≤ 0 →
      execute_transfer st sid rid amt d ty k tid
        = (st, TransferOutcome.invalidAmount)) ∧
    (0 < amt → (matched_accounts st.bank sid rid).length ≠ 2 →
      execute_transfer st sid rid amt d ty k tid
        = (st, TransferOutcome.failed TransferError.accountNotFound)) ∧
    (∀ s r, 0 < amt → (matched_accounts st.bank sid rid).length = 2 →
      map_sender_receiver (matched_accounts st.bank sid rid) sid rid
        = (some s, some r) →
      (!(s.status == "active") || !(r.status == "active")) = true →
      execute_transfer st sid rid amt d ty k tid
        = (st, TransferOutcome.failed TransferError.accountNotActive)) ∧
    (∀ s r, 0 < amt → (matched_accounts st.bank sid rid).length = 2 →
      map_sender_receiver (matched_accounts st.bank sid rid) sid rid
        = (some s, some r) →
      s.status = "active" → r.status = "active" → s.balance < amt →
      execute_transfer st sid rid amt d ty k tid
        = (st, TransferOutcome.failed TransferError.insufficientBalance)) := by
  refine ⟨?_, ?_, ?_, ?_⟩
  · intro hamt
    simp [execute_transfer, hamt]
  · intro hamt hlen
    exact execute_transfer_failed_of_perform st sid rid amt d ty k tid _ hamt hmiss
      (perform_transfer_notFound st.bank sid rid amt d ty k tid hlen)
  · intro s r hamt hlen hmap hstat
    exact execute_transfer_failed_of_perform st sid rid amt d ty k tid _ hamt hmiss
      (perform_transfer_notActive st.bank sid rid amt d ty k tid s r hlen hmap hstat)
  · intro s r hamt hlen hmap hs hr hbal
    exact execute_transfer_failed_of_perform st sid rid amt d ty k tid _ hamt hmiss
      (perform_transfer_insufficient st.bank sid rid amt d ty k tid s r hlen hmap hs hr hbal)

/-- Witness for C4: four concrete calls, one per precondition check. -/
theorem execute_transfer_check_order_witness :
    execute_transfer
        { bank :=
            { accounts :=
                [ { id := 1, account_number := "111111111111", user_id := 7,
                    account_type := "checking", balance := 100, status := "active" },
                  { id := 2, account_number := "222222222222", user_id := 7,
                    account_type := "savings", balance := 0, status := "frozen" } ],
              transactions := [] },
          cache := [] } 1 2 (-3) "d" "internal_transfer" none "T"
      = ({ bank :=
            { accounts :=
                [ { id := 1, account_number := "111111111111", user_id := 7,
                    account_type := "checking", balance := 100, status := "active" },
                  { id := 2, account_number := "222222222222", user_id := 7,
                    account_type := "savings", balance := 0, status := "frozen" } ],
              transactions := [] },
           cache := [] }, TransferOutcome.invalidAmount) ∧
    execute_transfer
        { bank :=
            { accounts :=
                [ { id := 1, account_number := "111111111111", user_id := 7,
                    account_type := "checking", balance := 100, status := "active" } ],
              transactions := [] },
          cache := [] } 1 9 10 "d" "internal_transfer" none "T"
      = ({ bank :=
            { accounts :=
                [ { id := 1, account_number := "111111111111", user_id := 7,
                    account_type := "checking", balance := 100, status := "active" } ],
              transactions := [] },
           cache := [] }, TransferOutcome.failed TransferError.accountNotFound) ∧
    execute_transfer
        { bank :=
            { accounts :=
                [ { id := 1, account_number := "111111111111", user_id := 7,
                    account_type := "checking", balance := 100, status := "active" },
                  { id := 2, account_number := "222222222222", user_id := 7,
                    account_type := "savings", balance := 0, status := "frozen" } ],
              transactions := [] },
          cache := [] } 1 2 10 "d" "internal_transfer" none "T"
      = ({ bank :=
            { accounts :=
                [ { id := 1, account_number := "111111111111", user_id := 7,
                    account_type := "checking", balance := 100, status := "active" },
                  { id := 2, account_number := "222222222222", user_id := 7,
                    account_type := "savings", balance := 0, status := "frozen" } ],
              transactions := [] },
           cache := [] }, TransferOutcome.failed TransferError.accountNotActive) ∧
    execute_transfer
        { bank :=
            { accounts :=
                [ { id := 1, account_number := "111111111111", user_id := 7,
                    account_type := "checking", balance := 100, status := "active" },
                  { id := 2, account_number := "222222222222", user_id := 7,
                    account_type := "savings", balance := 0, status := "active" } ],
              transactions := [] },
          cache := [] } 1 2 500 "d" "internal_transfer" none "T"
      = ({ bank :=
            { accounts :=
                [ { id := 1, account_number := "111111111111", user_id := 7,
                    account_type := "checking", balance := 100, status := "active" },
                  { id := 2, account_number := "222222222222", user_id := 7,
                    account_type := "savings", balance := 0, status := "active" } ],
              transactions := [] },
           cache := [] }, TransferOutcome.failed TransferError.insufficientBalance) := by
  refine ⟨?_, ?_, ?_, ?_⟩
  · exact (execute_transfer_check_order _ 1 2 (-3) "d" "internal_transfer" none "T"
      (fun kk hkk => Option.noConfusion hkk)).1 (by decide)
  · exact (execute_transfer_check_order _ 1 9 10 "d" "internal_transfer" none "T"
      (fun kk hkk => Option.noConfusion hkk)).2.1 (by decide) (by decide)
  · exact (execute_transfer_check_order _ 1 2 10 "d" "internal_transfer" none "T"
      (fun kk hkk => Option.noConfusion hkk)).2.2.1
      { id := 1, account_number := "111111111111", user_id := 7,
        account_type := "checking", balance := 100, status := "active" }
      { id := 2, account_number := "222222222222", user_id := 7,
        account_type := "savings", balance := 0, status := "frozen" }
      (by decide) (by decide) (by decide) (by decide)
  · exact (execute_transfer_check_order _ 1 2 500 "d" "internal_transfer" none "T"
      (fun kk hkk => Option.noConfusion hkk)).2.2.2
      { id := 1, account_number := "111111111111", user_id := 7,
        account_type := "checking", balance := 100, status := "active" }
      { id := 2, account_number := "222222222222", user_id := 7,
        account_type := "savings", balance := 0, status := "active" }
      (by decide) (by decide) (by decide) rfl rfl (by decide)

/-- Claim C5: a transfer whose amount exceeds the sender account's
balance (the other preconditions holding: both accounts fetched and
mapped, both active, amount positive, no idempotency-cache hit) is
rejected with the insufficient-balance business-rule error, and the
state is unchanged: both balances keep their values and no transaction
row persists. -/
theorem insufficient_balance_rejected (st : SysState) (sid rid : Nat)
    (amt : Int) (d ty : String) (k : Option String) (tid : String)
    (s r : Account)
    (hmiss : ∀ kk, k = some kk → st.cache.lookup kk = none)
    (hamt : 0 < amt)
    (hlen : (matched_accounts st.bank sid rid).length = 2)
    (hmap : map_sender_receiver (matched_accounts st.bank sid rid) sid rid
      = (some s, some r))
    (hs : s.status = "active") (hr : r.status = "active")
    (hbal : s.balance < amt) :
    execute_transfer st sid rid amt d ty k tid
      = (st, TransferOutcome.failed TransferError.insufficientBalance) ∧
    (execute_transfer st sid rid amt d ty k tid).1.bank.accounts
      = st.bank.accounts ∧
    (execute_transfer st sid rid amt d ty k tid).1.bank.transactions
      = st.bank.transactions := by
  have h1 := execute_transfer_failed_of_perform st sid rid amt d ty k tid _ hamt
    hmiss
    (perform_transfer_insufficient st.bank sid rid amt d ty k tid s r hlen hmap
      hs hr hbal)
  exact ⟨h1, by rw [h1], by rw [h1]⟩

/-- Witness for C5 at the spec's concrete scenario: transferring 300
from an account holding 100 fails with the insufficient-balance error
and the ledger is unchanged. -/
theorem insufficient_balance_rejected_witness :
    execute_transfer
        { bank :=
            { accounts :=
                [ { id := 1, account_number := "111111111111", user_id := 7,
                    account_type := "checking", balance := 100, status := "active" },
                  { id := 2, account_number := "222222222222", user_id := 7,
                    account_type := "savings", balance := 100, status := "active" } ],
              transactions := [] },
          cache := [] } 1 2 300 "d" "internal_transfer" none "T"
      = ({ bank :=
            { accounts :=
                [ { id := 1, account_number := "111111111111", user_id := 7,
                    account_type := "checking", balance := 100, status := "active" },
                  { id := 2, account_number := "222222222222", user_id := 7,
                    account_type := "savings", balance := 100, status := "active" } ],
              transactions := [] },
           cache := [] }, TransferOutcome.failed TransferError.insufficientBalance) :=
  (insufficient_balance_rejected _ 1 2 300 "d" "internal_transfer" none "T"
    { id := 1, account_number := "111111111111", user_id := 7,
      account_type := "checking", balance := 100, status := "active" }
    { id := 2, account_number := "222222222222", user_id := 7,
      account_type := "savings", balance := 100, status := "active" }
    (fun kk hkk => Option.noConfusion hkk) (by decide) (by decide) (by decide)
    rfl rfl (by decide)).1

/-- Claim C10: a self-transfer (sender account = receiver account) can
never execute.  First, no self-transfer call ever returns `completed`.
Second, under the conditions the claim names — the account exists (row
ids being unique), it is active, its balance covers the amount, the
amount is positive, and there is no idempotency-cache hit — the call
fails with the accounts-not-found error and leaves the state (hence the
account's balance) unchanged. -/
theorem self_transfer_never_executes (st : SysState) (x : Nat) (amt : Int)
    (d ty : String) (k : Option String) (tid : String) (acc : Account) :
    (∀ t st', execute_transfer st x x amt d ty k tid
      ≠ (st', TransferOutcome.completed t)) ∧
    ((st.bank.accounts.map (fun a => a.id)).Nodup →
      0 < amt → (∀ kk, k = some kk → st.cache.lookup kk = none) →
      findAccount st.bank x = some acc → acc.status = "active" →
      amt ≤ acc.balance →
      execute_transfer st x x amt d ty k tid
        = (st, TransferOutcome.failed TransferError.accountNotFound)) := by
  constructor
  · intro t st' hcontra
    obtain ⟨-, -, -, ⟨txn, hperf⟩, -, -⟩ :=
      execute_transfer_completed_spec st st' x x amt d ty k tid t hcontra
    obtain ⟨hne, -⟩ :=
      perform_transfer_ok_spec st.bank st'.bank x x amt d ty k tid txn hperf
    exact hne rfl
  · intro hnd hamt hmiss hfind hst hbal
    have hmeq : matched_accounts st.bank x x
        = st.bank.accounts.filter (fun a => a.id == x) := by
      simp [matched_accounts]
    have hle : (st.bank.accounts.filter (fun a => a.id == x)).length ≤ 1 :=
      length_filter_id_le_one _ _ hnd
    have hge : 1 ≤ (st.bank.accounts.filter (fun a => a.id == x)).length :=
      one_le_length_filter_of_find? st.bank.accounts x acc hfind
    have hlen : (matched_accounts st.bank x x).length ≠ 2 := by
      rw [hmeq]
      omega
    exact execute_transfer_failed_of_perform st x x amt d ty k tid _ hamt hmiss
      (perform_transfer_notFound st.bank x x amt d ty k tid hlen)

/-- Witness for C10: a concrete active account with sufficient balance;
the self-transfer fails with the accounts-not-found error and never
completes. -/
theorem self_transfer_never_executes_witness :
    execute_transfer
        { bank :=
            { accounts :=
                [ { id := 1, account_number := "111111111111", user_id := 7,
                    account_type := "checking", balance := 100, status := "active" } ],
              transactions := [] },
          cache := [] } 1 1 50 "d" "internal_transfer" none "T"
      = ({ bank :=
            { accounts :=
                [ { id := 1, account_number := "111111111111", user_id := 7,
                    account_type := "checking", balance := 100, status := "active" } ],
              transactions := [] },
           cache := [] }, TransferOutcome.failed TransferError.accountNotFound) ∧
    execute_transfer
        { bank :=
            { accounts :=
                [ { id := 1, account_number := "111111111111", user_id := 7,
                    account_type := "checking", balance := 100, status := "active" } ],
              transactions := [] },
          cache := [] } 1 1 50 "d" "internal_transfer" none "T"
      ≠ ({ bank :=
            { accounts :=
                [ { id := 1, account_number := "111111111111", user_id := 7,
                    account_type := "checking", balance := 100, status := "active" } ],
              transactions := [] },
           cache := [] }, TransferOutcome.completed "Z") :=
  ⟨(self_transfer_never_executes _ 1 50 "d" "internal_transfer" none "T"
      { id := 1, account_number := "111111111111", user_id := 7,
        account_type := "checking", balance := 100, status := "active" }).2
      (by decide) (by decide) (fun kk hkk => Option.noConfusion hkk) rfl rfl
      (by decide),
   (self_transfer_never_executes _ 1 50 "d" "internal_transfer" none "T"
      { id := 1, account_number := "111111111111", user_id := 7,
        account_type := "checking", balance := 100, status := "active" }).1 "Z" _⟩

/-- Claim C2: conservation.  For every successful transfer the sender's
account is debited by exactly the amount, the receiver's account is
credited by exactly the amount, and the sum of the two balances is
preserved. -/
theorem transfer_conservation (bank bank' : Bank) (sid rid : Nat) (amt : Int)
    (d ty : String) (k : Option String) (tid : String) (txn : TransactionRec)
    (s r : Account)
    (hok : perform_transfer bank sid rid amt d ty k tid = Except.ok (bank', txn))
    (hs : findAccount bank sid = some s)
    (hr : findAccount bank rid = some r) :
    findAccount bank' sid = some { s with balance := s.balance - amt } ∧
    findAccount bank' rid = some { r with balance := r.balance + amt } ∧
    (s.balance - amt) + (r.balance + amt) = s.balance + r.balance := by
  obtain ⟨hne, hacc, -, -, -⟩ :=
    perform_transfer_ok_spec bank bank' sid rid amt d ty k tid txn hok
  have hsid : s.id = sid := by simpa using (List.find?_some hs)
  have hrid : r.id = rid := by simpa using (List.find?_some hr)
  have hs' : bank.accounts.find? (fun a => a.id == sid) = some s := hs
  have hr' : bank.accounts.find? (fun a => a.id == rid) = some r := hr
  have hcred : ∀ a : Account,
      ((fun a => if a.id == rid then { a with balance := a.balance + amt } else a) a).id
        = a.id := by
    intro a
    by_cases h : (a.id == rid) = true <;> simp [h]
  have hdeb : ∀ a : Account,
      ((fun a => if a.id == sid then { a with balance := a.balance - amt } else a) a).id
        = a.id := by
    intro a
    by_cases h : (a.id == sid) = true <;> simp [h]
  refine ⟨?_, ?_, by omega⟩
  · rw [findAccount, hacc, find?_map_id_preserving _ hcred,
      find?_map_id_preserving _ hdeb, hs']
    simp [hsid, hne]
  · rw [findAccount, hacc, find?_map_id_preserving _ hcred,
      find?_map_id_preserving _ hdeb, hr']
    have hne2 : rid ≠ sid := fun hh => hne hh.symm
    simp [hrid, hne2]

/-- Witness for C2 at the spec's concrete scenario: accounts holding
500 and 100, transfer of 200, final balances 300 and 300 with the sum
preserved. -/
theorem transfer_conservation_witness :
    findAccount
        { accounts :=
            [ { id := 1, account_number := "111111111111", user_id := 7,
                account_type := "checking", balance := 300, status := "active" },
              { id := 2, account_number := "222222222222", user_id := 7,
                account_type := "savings", balance := 300, status := "active" } ],
          transactions :=
            [ { transaction_id := "TID0000000000000", idempotency_key := none,
                sender_account_id := 1, receiver_account_id := 2, amount := 200,
                transaction_type := "internal_transfer", description := "d",
                status := "completed" } ] } 1
      = some { id := 1, account_number := "111111111111", user_id := 7,
               account_type := "checking", balance := 300, status := "active" } ∧
    findAccount
        { accounts :=
            [ { id := 1, account_number := "111111111111", user_id := 7,
                account_type := "checking", balance := 300, status := "active" },
              { id := 2, account_number := "222222222222", user_id := 7,
                account_type := "savings", balance := 300, status := "active" } ],
          transactions :=
            [ { transaction_id := "TID0000000000000", idempotency_key := none,
                sender_account_id := 1, receiver_account_id := 2, amount := 200,
                transaction_type := "internal_transfer", description := "d",
                status := "completed" } ] } 2
      = some { id := 2, account_number := "222222222222", user_id := 7,
               account_type := "savings", balance := 300, status := "active" } ∧
    ((500 : Int) - 200) + ((100 : Int) + 200) = 500 + 100 :=
  transfer_conservation
    { accounts :=
        [ { id := 1, account_number := "111111111111", user_id := 7,
            account_type := "checking", balance := 500, status := "active" },
          { id := 2, account_number := "222222222222", user_id := 7,
            account_type := "savings", balance := 100, status := "active" } ],
      transactions := [] }
    { accounts :=
        [ { id := 1, account_number := "111111111111", user_id := 7,
            account_type := "checking", balance := 300, status := "active" },
          { id := 2, account_number := "222222222222", user_id := 7,
            account_type := "savings", balance := 300, status := "active" } ],
      transactions :=
        [ { transaction_id := "TID0000000000000", idempotency_key := none,
            sender_account_id := 1, receiver_account_id := 2, amount := 200,
            transaction_type := "internal_transfer", description := "d",
            status := "completed" } ] }
    1 2 200 "d" "internal_transfer" none "TID0000000000000"
    { transaction_id := "TID0000000000000", idempotency_key := none,
      sender_account_id := 1, receiver_account_id := 2, amount := 200,
      transaction_type := "internal_transfer", description := "d",
      status := "completed" }
    { id := 1, account_number := "111111111111", user_id := 7,
      account_type := "checking", balance := 500, status := "active" }
    { id := 2, account_number := "222222222222", user_id := 7,
      account_type := "savings", balance := 100, status := "active" }
    rfl rfl rfl

/-- Claim C3: idempotent retry.  After a first `execute_transfer` call
with idempotency key `kk` completed with transaction id `tid`, a second
call with the same key and parameters finds the key in the cache and
returns the same `tid` with the state fully unchanged (no balance
change, no new transaction row); exactly one transaction row carries
key `kk`; the cache maps `kk` to `tid`; and on any failed call the
cache (and the rest of the state) is untouched — the mapping is written
only after the transfer commits. -/
theorem idempotent_retry (st st1 : SysState) (sid rid : Nat) (amt : Int)
    (d ty : String) (kk tid tid2 : String)
    (h1 : execute_transfer st sid rid amt d ty (some kk) tid
      = (st1, TransferOutcome.completed tid)) :
    execute_transfer st1 sid rid amt d ty (some kk) tid2
      = (st1, TransferOutcome.duplicate tid) ∧
    (st1.bank.transactions.filter (fun t => t.idempotency_key == some kk)).length
      = 1 ∧
    st1.cache.lookup kk = some tid ∧
    (∀ st0 st' e sid' rid' amt' d' ty' k' tid',
      execute_transfer st0 sid' rid' amt' d' ty' k' tid'
        = (st', TransferOutcome.failed e) → st' = st0) := by
  obtain ⟨-, hamt, -, ⟨txn, hperf⟩, hcache, -⟩ :=
    execute_transfer_completed_spec st st1 sid rid amt d ty (some kk) tid tid h1
  have hcache1 : st1.cache = (kk, tid) :: st.cache := hcache kk rfl
  obtain ⟨hne, -, htxns, htxn, hprior⟩ :=
    perform_transfer_ok_spec st.bank st1.bank sid rid amt d ty (some kk) tid txn
      hperf
  have hlookup : st1.cache.lookup kk = some tid := by
    rw [hcache1]
    simp [List.lookup]
  refine ⟨?_, ?_, hlookup, ?_⟩
  · simp only [execute_transfer]
    rw [if_neg (by omega)]
    simp [hlookup]
  · have hnil : st.bank.transactions.filter
        (fun t => t.idempotency_key == some kk) = [] := by
      rw [List.filter_eq_nil_iff]
      intro a ha hcontra
      have hfalse := hprior kk rfl
      rw [List.any_eq_false] at hfalse
      exact hfalse a ha hcontra
    rw [htxns, List.filter_append, hnil, htxn]
    simp
  · intro st0 st' e sid' rid' amt' d' ty' k' tid' hfail
    exact execute_transfer_no_mutation st0 st' sid' rid' amt' d' ty' k' tid' _
      hfail (fun t => by simp)

/-- Witness for C3: a concrete first transfer of 200 with key `KEY`
and id `TID1`; the retry with a fresh random id `TID2` returns the
original id without touching the state, the state holds exactly one
row with the key, and the cache maps the key to the original id. -/
theorem idempotent_retry_witness :
    execute_transfer
        { bank :=
            { accounts :=
                [ { id := 1, account_number := "111111111111", user_id := 7,
                    account_type := "checking", balance := 300, status := "active" },
                  { id := 2, account_number := "222222222222", user_id := 7,
                    account_type := "savings", balance := 300, status := "active" } ],
              transactions :=
                [ { transaction_id := "TID1", idempotency_key := some "KEY",
                    sender_account_id := 1, receiver_account_id := 2,
                    amount := 200, transaction_type := "internal_transfer",
                    description := "d", status := "completed" } ] },
          cache := [("KEY", "TID1")] } 1 2 200 "d" "internal_transfer"
        (some "KEY") "TID2"
      = ({ bank :=
            { accounts :=
                [ { id := 1, account_number := "111111111111", user_id := 7,
                    account_type := "checking", balance := 300, status := "active" },
                  { id := 2, account_number := "222222222222", user_id := 7,
                    account_type := "savings", balance := 300, status := "active" } ],
              transactions :=
                [ { transaction_id := "TID1", idempotency_key := some "KEY",
                    sender_account_id := 1, receiver_account_id := 2,
                    amount := 200, transaction_type := "internal_transfer",
                    description := "d", status := "completed" } ] },
           cache := [("KEY", "TID1")] }, TransferOutcome.duplicate "TID1") ∧
    List.length
      (List.filter (fun t => t.idempotency_key == some "KEY")
        [ ({ transaction_id := "TID1", idempotency_key := some "KEY",
             sender_account_id := 1, receiver_account_id := 2,
             amount := 200, transaction_type := "internal_transfer",
             description := "d", status := "completed" } : TransactionRec) ]) = 1 :=
  ⟨(idempotent_retry
      { bank :=
          { accounts :=
              [ { id := 1, account_number := "111111111111", user_id := 7,
                  account_type := "checking", balance := 500, status := "active" },
                { id := 2, account_number := "222222222222", user_id := 7,
                  account_type := "savings", balance := 100, status := "active" } ],
            transactions := [] },
        cache := [] }
      { bank :=
          { accounts :=
              [ { id := 1, account_number := "111111111111", user_id := 7,
                  account_type := "checking", balance := 300, status := "active" },
                { id := 2, account_number := "222222222222", user_id := 7,
                  account_type := "savings", balance := 300, status := "active" } ],
            transactions :=
              [ { transaction_id := "TID1", idempotency_key := some "KEY",
                  sender_account_id := 1, receiver_account_id := 2,
                  amount := 200, transaction_type := "internal_transfer",
                  description := "d", status := "completed" } ] },
        cache := [("KEY", "TID1")] }
      1 2 200 "d" "internal_transfer" "KEY" "TID1" "TID2" rfl).1,
   (idempotent_retry
      { bank :=
          { accounts :=
              [ { id := 1, account_number := "111111111111", user_id := 7,
                  account_type := "checking", balance := 500, status := "active" },
                { id := 2, account_number := "222222222222", user_id := 7,
                  account_type := "savings", balance := 100, status := "active" } ],
            transactions := [] },
        cache := [] }
      { bank :=
          { accounts :=
              [ { id := 1, account_number := "111111111111", user_id := 7,
                  account_type := "checking", balance := 300, status := "active" },
                { id := 2, account_number := "222222222222", user_id := 7,
                  account_type := "savings", balance := 300, status := "active" } ],
            transactions :=
              [ { transaction_id := "TID1", idempotency_key := some "KEY",
                  sender_account_id := 1, receiver_account_id := 2,
                  amount := 200, transaction_type := "internal_transfer",
                  description := "d", status := "completed" } ] },
        cache := [("KEY", "TID1")] }
      1 2 200 "d" "internal_transfer" "KEY" "TID1" "TID2" rfl).2.1⟩

/-- Claim C8: counterexample.  Python's `str()` renders the SQL NULL
(`None`) and the literal string `"None"` identically, so altering the
stored nullable `details` field from NULL to the string `"None"` leaves
the canonical entry string — and therefore the recomputed digest, for
any digest function — unchanged: the recomputed digest still equals the
stored hash although the field was altered. -/
theorem audit_hash_tamper_counterexample :
    (create_audit_log (fun s => s) [] (some 1) "login_failed" (some "auth")
        none "127.0.0.1" "agent" none "warning").1
      = [ mk_audit_entry (fun s => s) 1 (some 1) "login_failed" (some "auth")
            none "127.0.0.1" "agent" none "warning" ] ∧
    entry_string
        { mk_audit_entry (fun s => s) 1 (some 1) "login_failed" (some "auth")
            none "127.0.0.1" "agent" none "warning" with details := some "None" }
      = entry_string
          (mk_audit_entry (fun s => s) 1 (some 1) "login_failed" (some "auth")
            none "127.0.0.1" "agent" none "warning") ∧
    verify_audit_entry (fun s => s)
        { mk_audit_entry (fun s => s) 1 (some 1) "login_failed" (some "auth")
            none "127.0.0.1" "agent" none "warning" with details := some "None" }
      = true ∧
    some "None" ≠ (mk_audit_entry (fun s => s) 1 (some 1) "login_failed"
        (some "auth") none "127.0.0.1" "agent" none "warning").details :=
  ⟨rfl, rfl, rfl, by decide⟩

/-- Claim C8 (amended): for every stored audit entry the digest
recomputed over its stored fields equals its stored hash; and — for a
collision-free digest — altering any one of the nine hashed fields
breaks the match whenever the altered value's canonical `str()`
rendering differs (plain string fields always render distinct values
distinctly; for the nullable fields the rendering collapses exactly the
SQL NULL with the literal string `"None"`). -/
theorem audit_hash_detects_tampering (h : String → String)
    (hinj : ∀ s t, h s = h t → s = t)
    (lid : Nat) (u : Option Nat) (act : String) (rt : Option String)
    (rid : Option Nat) (ip ua : String) (det : Option String) (sev : String) :
    verify_audit_entry h (mk_audit_entry h lid u act rt rid ip ua det sev)
      = true ∧
    (∀ x, toString x ≠ toString lid →
      verify_audit_entry h
        { mk_audit_entry h lid u act rt rid ip ua det sev with log_id := x }
        = false) ∧
    (∀ x, opt_nat_str x ≠ opt_nat_str u →
      verify_audit_entry h
        { mk_audit_entry h lid u act rt rid ip ua det sev with user_id := x }
        = false) ∧
    (∀ x, x ≠ act →
      verify_audit_entry h
        { mk_audit_entry h lid u act rt rid ip ua det sev with action := x }
        = false) ∧
    (∀ x, opt_str x ≠ opt_str rt →
      verify_audit_entry h
        { mk_audit_entry h lid u act rt rid ip ua det sev with resource_type := x }
        = false) ∧
    (∀ x, opt_nat_str x ≠ opt_nat_str rid →
      verify_audit_entry h
        { mk_audit_entry h lid u act rt rid ip ua det sev with resource_id := x }
        = false) ∧
    (∀ x, x ≠ ip →
      verify_audit_entry h
        { mk_audit_entry h lid u act rt rid ip ua det sev with ip_address := x }
        = false) ∧
    (∀ x, x ≠ ua →
      verify_audit_entry h
        { mk_audit_entry h lid u act rt rid ip ua det sev with user_agent := x }
        = false) ∧
    (∀ x, opt_str x ≠ opt_str det →
      verify_audit_entry h
        { mk_audit_entry h lid u act rt rid ip ua det sev with details := x }
        = false) ∧
    (∀ x, x ≠ sev →
      verify_audit_entry h
        { mk_audit_entry h lid u act rt rid ip ua det sev with severity := x }
        = false) := by
  refine ⟨?_, ?_, ?_, ?_, ?_, ?_, ?_, ?_, ?_, ?_⟩
  · show (h (colon_join [toString lid, opt_nat_str u, act, opt_str rt,
      opt_nat_str rid, ip, ua, opt_str det, sev]) ==
      h (colon_join [toString lid, opt_nat_str u, act, opt_str rt,
        opt_nat_str rid, ip, ua, opt_str det, sev])) = true
    simp
  · intro x hx
    show (h (colon_join [toString x, opt_nat_str u, act, opt_str rt,
      opt_nat_str rid, ip, ua, opt_str det, sev]) ==
      h (colon_join [toString lid, opt_nat_str u, act, opt_str rt,
        opt_nat_str rid, ip, ua, opt_str det, sev])) = false
    exact beq_hash_false_of_ne h hinj _ _
      (colon_join_ne [] (toString x) (toString lid)
        [opt_nat_str u, act, opt_str rt, opt_nat_str rid, ip, ua, opt_str det, sev]
        hx)
  · intro x hx
    show (h (colon_join [toString lid, opt_nat_str x, act, opt_str rt,
      opt_nat_str rid, ip, ua, opt_str det, sev]) ==
      h (colon_join [toString lid, opt_nat_str u, act, opt_str rt,
        opt_nat_str rid, ip, ua, opt_str det, sev])) = false
    exact beq_hash_false_of_ne h hinj _ _
      (colon_join_ne [toString lid] (opt_nat_str x) (opt_nat_str u)
        [act, opt_str rt, opt_nat_str rid, ip, ua, opt_str det, sev] hx)
  · intro x hx
    show (h (colon_join [toString lid, opt_nat_str u, x, opt_str rt,
      opt_nat_str rid, ip, ua, opt_str det, sev]) ==
      h (colon_join [toString lid, opt_nat_str u, act, opt_str rt,
        opt_nat_str rid, ip, ua, opt_str det, sev])) = false
    exact beq_hash_false_of_ne h hinj _ _
      (colon_join_ne [toString lid, opt_nat_str u] x act
        [opt_str rt, opt_nat_str rid, ip, ua, opt_str det, sev] hx)
  · intro x hx
    show (h (colon_join [toString lid, opt_nat_str u, act, opt_str x,
      opt_nat_str rid, ip, ua, opt_str det, sev]) ==
      h (colon_join [toString lid, opt_nat_str u, act, opt_str rt,
        opt_nat_str rid, ip, ua, opt_str det, sev])) = false
    exact beq_hash_false_of_ne h hinj _ _
      (colon_join_ne [toString lid, opt_nat_str u, act] (opt_str x) (opt_str rt)
        [opt_nat_str rid, ip, ua, opt_str det, sev] hx)
  · intro x hx
    show (h (colon_join [toString lid, opt_nat_str u, act, opt_str rt,
      opt_nat_str x, ip, ua, opt_str det, sev]) ==
      h (colon_join [toString lid, opt_nat_str u, act, opt_str rt,
        opt_nat_str rid, ip, ua, opt_str det, sev])) = false
    exact beq_hash_false_of_ne h hinj _ _
      (colon_join_ne [toString lid, opt_nat_str u, act, opt_str rt]
        (opt_nat_str x) (opt_nat_str rid) [ip, ua, opt_str det, sev] hx)
  · intro x hx
    show (h (colon_join [toString lid, opt_nat_str u, act, opt_str rt,
      opt_nat_str rid, x, ua, opt_str det, sev]) ==
      h (colon_join [toString lid, opt_nat_str u, act, opt_str rt,
        opt_nat_str rid, ip, ua, opt_str det, sev])) = false
    exact beq_hash_false_of_ne h hinj _ _
      (colon_join_ne [toString lid, opt_nat_str u, act, opt_str rt,
        opt_nat_str rid] x ip [ua, opt_str det, sev] hx)
  · intro x hx
    show (h (colon_join [toString lid, opt_nat_str u, act, opt_str rt,
      opt_nat_str rid, ip, x, opt_str det, sev]) ==
      h (colon_join [toString lid, opt_nat_str u, act, opt_str rt,
        opt_nat_str rid, ip, ua, opt_str det, sev])) = false
    exact beq_hash_false_of_ne h hinj _ _
      (colon_join_ne [toString lid, opt_nat_str u, act, opt_str rt,
        opt_nat_str rid, ip] x ua [opt_str det, sev] hx)
  · intro x hx
    show (h (colon_join [toString lid, opt_nat_str u, act, opt_str rt,
      opt_nat_str rid, ip, ua, opt_str x, sev]) ==
      h (colon_join [toString lid, opt_nat_str u, act, opt_str rt,
        opt_nat_str rid, ip, ua, opt_str det, sev])) = false
    exact beq_hash_false_of_ne h hinj _ _
      (colon_join_ne [toString lid, opt_nat_str u, act, opt_str rt,
        opt_nat_str rid, ip, ua] (opt_str x) (opt_str det) [sev] hx)
  · intro x hx
    show (h (colon_join [toString lid, opt_nat_str u, act, opt_str rt,
      opt_nat_str rid, ip, ua, opt_str det, x]) ==
      h (colon_join [toString lid, opt_nat_str u, act, opt_str rt,
        opt_nat_str rid, ip, ua, opt_str det, sev])) = false
    exact beq_hash_false_of_ne h hinj _ _
      (colon_join_ne [toString lid, opt_nat_str u, act, opt_str rt,
        opt_nat_str rid, ip, ua, opt_str det] x sev [] hx)

/-- Witness for C8 with an injective stand-in digest: the stored entry
verifies, and altering the action (or the details to a distinct
rendering) breaks the match. -/
theorem audit_hash_detects_tampering_witness :
    verify_audit_entry (fun s => s)
        (mk_audit_entry (fun s => s) 1 (some 2) "login_failed" (some "auth")
          none "127.0.0.1" "agent" none "warning") = true ∧
    verify_audit_entry (fun s => s)
        { mk_audit_entry (fun s => s) 1 (some 2) "login_failed" (some "auth")
            none "127.0.0.1" "agent" none "warning" with action := "tampered" }
      = false ∧
    verify_audit_entry (fun s => s)
        { mk_audit_entry (fun s => s) 1 (some 2) "login_failed" (some "auth")
            none "127.0.0.1" "agent" none "warning" with details := some "oops" }
      = false :=
  ⟨(audit_hash_detects_tampering (fun s => s) (fun _ _ hh => hh) 1 (some 2)
      "login_failed" (some "auth") none "127.0.0.1" "agent" none "warning").1,
   (audit_hash_detects_tampering (fun s => s) (fun _ _ hh => hh) 1 (some 2)
      "login_failed" (some "auth") none "127.0.0.1" "agent" none "warning").2.2.2.1
     "tampered" (by decide),
   (audit_hash_detects_tampering (fun s => s) (fun _ _ hh => hh) 1 (some 2)
      "login_failed" (some "auth") none "127.0.0.1" "agent" none "warning").2.2.2.2.2.2.2.2.1
     (some "oops") (by decide)⟩

end SecureBank
